import Mathlib

/-!
# Verification of the BlueBubbles server core (shallow embedding)

This file embeds, in Lean 4, the parts of the bluebubbles-server source that
the verified claims are about:

* the PAPI message-update classifier (`getMessageEvent`, `processMessageEvent`,
  `onReceiveMessageUpdate`, `handleOutgoingMessage`) from
  `PAPIMessageUpdateListener.ts`;
* the `OutgoingMessageManager` (`find` / `findIndex`);
* the helper-socket service (`BlueBubblesHelperService`): the restart counter
  state machine, the typing-indicator debounce, and the inbound `data` handler
  with its transaction dispatch;
* `IncomingMessageListener.getEntries`.

JavaScript features are embedded explicitly: `null`/`undefined` become
`Option`, a field read on `null` becomes an `Except.error` (`JsError`),
`Date.getTime()` millisecond values become `Int`, JS objects used as string
maps become association lists with shadowing update, and side effects (logs,
event emissions, promise resolutions) are reified as values of an `Effect`
type.  External collaborators (the message repository, `JSON.parse`, the
`MessagePromise.isSame` predicate) are parameters of the embedded functions.
-/

namespace BB

/-- A message row, with the fields the embedded code reads
(`Message.ts` entity).  Timestamps are `getTime()` millisecond values.
`dateCreated` is total: every code path in the source reads it unguarded
(`contentString`, the snapshot write in `processMessageEvent`), so a row
always carries a creation date.  The other four tracked dates and `error`
are nullable in the entity and are embedded as `Option`. -/
structure Message where
  guid : String
  text : Option String := none
  subject : Option String := none
  dateCreated : Int
  dateDelivered : Option Int := none
  dateRead : Option Int := none
  dateEdited : Option Int := none
  dateRetracted : Option Int := none
  isFromMe : Bool := false
  isSent : Bool := false
  error : Option Int := none
  deriving Repr, DecidableEq

/-- A JavaScript runtime error raised by the embedded code
(reading a property of `null`/`undefined`, iterating a non-iterable). -/
inductive JsError where
  | typeError (msg : String)
  deriving Repr, DecidableEq

/-- Modelled from the spec: the `EventCache` class (`@server/eventCache`) is
not under `src/`; §4.1 gives its contract: `add(key)` inserts (idempotent),
`find(key) → bool` is a membership test, `purge()` clears all entries,
`size() → int`, with insertion order kept. -/
structure EventCache where
  keys : List String := []
  deriving Repr, DecidableEq

def EventCache.find (c : EventCache) (k : String) : Bool :=
  c.keys.contains k

def EventCache.add (c : EventCache) (k : String) : EventCache :=
  if c.find k then c else ⟨c.keys ++ [k]⟩

def EventCache.purge (_ : EventCache) : EventCache := ⟨[]⟩

def EventCache.size (c : EventCache) : Nat := c.keys.length

/-- The per-guid `MessageState` snapshot type of `PAPIMessageUpdateListener`. -/
structure MessageState where
  dateCreated : Int
  dateDelivered : Int
  dateRead : Int
  dateEdited : Int
  dateRetracted : Int
  deriving Repr, DecidableEq

/-- The mutable state of a `PAPIMessageUpdateListener`: the dedup cache, the
per-guid snapshot map (a JS object, embedded as an association list updated by
shadowing), and the `notSent` field, which the constructor never initializes
(it is `undefined`, hence `Option`, until first assigned). -/
structure PAPIListenerState where
  cache : EventCache := {}
  cacheState : List (String × MessageState) := []
  notSent : Option (List String) := none
  deriving Repr, DecidableEq

/-- The snapshot `processMessageEvent` writes for a message: present dates
via `getTime()`, absent dates as `0`. -/
def snapshotOf (m : Message) : MessageState :=
  { dateCreated := m.dateCreated
    dateDelivered := m.dateDelivered.getD 0
    dateRead := m.dateRead.getD 0
    dateEdited := m.dateEdited.getD 0
    dateRetracted := m.dateRetracted.getD 0 }

/-- Embeds `PAPIMessageUpdateListener.getMessageEvent`: classify a message against
the dedup cache and the snapshot map.  Returns `some "new-entry"`,
`some "updated-entry"`, or `none` (the TS `null`). -/
def getMessageEvent (st : PAPIListenerState) (message : Message) : Option String :=
  let guid := message.guid
  if !(st.cache.find guid) then some "new-entry"
  else
    match st.cacheState.lookup guid with
    | none => none
    | some state =>
      if message.dateCreated > state.dateCreated then some "updated-entry"
      else
        let delivered := message.dateDelivered.getD 0
        if delivered > state.dateDelivered then some "updated-entry"
        else
          let read := message.dateRead.getD 0
          if read > state.dateRead then some "updated-entry"
          else
            let edited := message.dateEdited.getD 0
            if edited > state.dateEdited then some "updated-entry"
            else
              let retracted := message.dateRetracted.getD 0
              if retracted > state.dateRetracted then some "updated-entry"
              else none

/-- Embeds `PAPIMessageUpdateListener.processMessageEvent`: classify, and on a
non-null event add the guid to the dedup cache (for `new-entry`) and record
the current snapshot. -/
def processMessageEvent (st : PAPIListenerState) (message : Message) :
    PAPIListenerState × Option String :=
  match getMessageEvent st message with
  | none => (st, none)
  | some event =>
    let st' := if event = "new-entry" then { st with cache := st.cache.add message.guid } else st
    ({ st' with cacheState := (message.guid, snapshotOf message) :: st'.cacheState }, some event)

/-- A reified side effect of the embedded code: server logs, outgoing-message
manager calls (`resolve` / `reject`), and `EventEmitter` emissions.  An
emission carries the event name, the channel argument when the source passes
one (`"incoming-message"` / `"outgoing-message"`), and the message guid. -/
inductive Effect where
  | log (msg : String)
  | logDebug (msg : String)
  | resolve (guid : String)
  | reject (reason : String) (guid : String)
  | emit (event : String) (channel : Option String) (guid : String)
  deriving Repr, DecidableEq

/-- The first `for (const entry of toEmit)` loop of `handleOutgoingMessage`:
process each entry; on a null event the TS `return` exits the whole function
(flag `true`), otherwise resolve the matching pending send and emit. -/
def emitSentLoop (st : PAPIListenerState) (effs : List Effect) :
    List Message → PAPIListenerState × List Effect × Bool
  | [] => (st, effs, false)
  | entry :: rest =>
    match processMessageEvent st entry with
    | (st', none) => (st', effs, true)
    | (st', some ev) =>
      emitSentLoop st'
        (effs ++ [Effect.resolve entry.guid, Effect.emit ev (some "outgoing-message") entry.guid])
        rest

/-- The `for (const entry of [lookbackErrored])` loop of
`handleOutgoingMessage`.  The loop variable can be `null` (when no lookback
message errored), and `processMessageEvent(null)` then throws on the
`message.guid` read inside `getMessageEvent`.  `rejectFinds` abstracts
whether `messageManager.reject` found a matching pending send. -/
def emitErroredLoop (rejectFinds : Message → Bool) (st : PAPIListenerState) (effs : List Effect) :
    List (Option Message) → Except JsError (PAPIListenerState × List Effect)
  | [] => Except.ok (st, effs)
  | none :: _ => Except.error (JsError.typeError "Cannot read properties of null (reading guid)")
  | some entry :: rest =>
    match processMessageEvent st entry with
    | (st', none) => Except.ok (st', effs)
    | (st', some _ev) =>
      let success := rejectFinds entry
      let effs' := effs ++ [Effect.reject "message-send-error" entry.guid,
        Effect.logDebug ("Errored Msg -> " ++ entry.guid)]
      if success then emitErroredLoop rejectFinds st' effs' rest
      else
        emitErroredLoop rejectFinds st'
          (effs' ++ [Effect.logDebug "Message Manager Match Failed",
            Effect.emit "message-send-error" (some "outgoing-message") entry.guid])
          rest

/-- Embeds `PAPIMessageUpdateListener.handleOutgoingMessage` statement by
statement.  `repo` abstracts `this.repo.getMessage` (`none` = the store has
no such row / returns `null`); `rejectFinds` abstracts
`Server().messageManager.reject` returning whether a pending send matched.
JS property reads on `null`/`undefined` and iteration over the
uninitialized `this.notSent` surface as `Except.error`. -/
def handleOutgoingMessage (repo : String → Option Message) (rejectFinds : Message → Bool)
    (st : PAPIListenerState) (messageGUID : String) (_isFromMe : Bool) (isSent : Bool) :
    Except JsError (PAPIListenerState × List Effect) := do
  let newMessage := repo messageGUID
  let newSent := if isSent then newMessage else none
  let newUnsent := if !isSent then newMessage else none
  let effs : List Effect :=
    match newUnsent with
    | some m => [Effect.logDebug ("Detected " ++ m.guid ++ " unsent outgoing message(s)")]
    | none => []
  let unsentIds0 ← match newUnsent with
    | none => Except.error (JsError.typeError "Cannot read properties of null (reading guid)")
    | some m => Except.ok m.guid
  let notSentList ← match st.notSent with
    | none => Except.error (JsError.typeError "this.notSent is not iterable")
    | some l => Except.ok l
  let unsentIds := notSentList.foldl (fun u i => if u ≠ i then i else u) unsentIds0
  let lookbackMessage : Option Message := if unsentIds ≠ "" then repo unsentIds else none
  let effs := effs ++
    (match lookbackMessage with
     | some m => [Effect.logDebug ("Detected " ++ m.guid ++ " sent (previously unsent) message(s)")]
     | none => [])
  let lb ← match lookbackMessage with
    | none => Except.error (JsError.typeError "Cannot read properties of undefined (reading isSent)")
    | some m => Except.ok m
  let lookbackSent := if lb.isSent && (lb.error.getD 0 == 0) then some lb else none
  let lookbackErrored := if lb.error.getD 0 > 0 then some lb else none
  let lookbackUnsent := if !lb.isSent && (lb.error.getD 0 == 0) then some lb else none
  let lug ← match lookbackUnsent with
    | none => Except.error (JsError.typeError "Cannot read properties of null (reading guid)")
    | some m => Except.ok m.guid
  let st := { st with notSent := some [lug] }
  let toEmit := (match newSent with | some m => [m] | none => []) ++
    (match lookbackSent with | some m => [m] | none => [])
  match emitSentLoop st effs toEmit with
  | (st', effs', true) => Except.ok (st', effs')
  | (st', effs', false) => emitErroredLoop rejectFinds st' effs' [lookbackErrored]

/-- Embeds `PAPIMessageUpdateListener.handleOutgoingMessageUpdate`: fetch the row,
classify it, and on a non-null event resolve the pending send and emit the
event (the two-argument `super.emit(event, entry)` form, channel `none`). -/
def handleOutgoingMessageUpdate (repo : String → Option Message) (st : PAPIListenerState)
    (messageGUID : String) (_isFromMe _isSent : Bool) :
    Except JsError (PAPIListenerState × List Effect) :=
  match repo messageGUID with
  | none => Except.error (JsError.typeError "Cannot read properties of null (reading guid)")
  | some entry =>
    match processMessageEvent st entry with
    | (st', none) => Except.ok (st', [])
    | (st', some ev) => Except.ok (st', [Effect.resolve entry.guid, Effect.emit ev none entry.guid])

/-- Embeds `PAPIMessageUpdateListener.onReceiveMessageUpdate`: log, then for
self-authored notifications run `handleOutgoingMessage` followed by
`handleOutgoingMessageUpdate`; otherwise fetch, classify and emit the event
on the `"incoming-message"` channel. -/
def onReceiveMessageUpdate (repo : String → Option Message) (rejectFinds : Message → Bool)
    (st : PAPIListenerState) (messageGUID : String) (isSent isFromMe : Bool) :
    Except JsError (PAPIListenerState × List Effect) := do
  let effs : List Effect := [Effect.log "MESSAGE UPDATE OBJECT RECEIVED", Effect.log messageGUID]
  if isFromMe then
    let (st1, effs1) ← handleOutgoingMessage repo rejectFinds st messageGUID isFromMe isSent
    let (st2, effs2) ← handleOutgoingMessageUpdate repo st1 messageGUID isFromMe isSent
    Except.ok (st2, effs ++ effs1 ++ effs2)
  else
    match repo messageGUID with
    | none => Except.error (JsError.typeError "Cannot read properties of null (reading guid)")
    | some newMessage =>
      match processMessageEvent st newMessage with
      | (st', none) => Except.ok (st', effs)
      | (st', some ev) =>
        Except.ok (st', effs ++ [Effect.emit ev (some "incoming-message") newMessage.guid])

/-- A registered pending send (`MessagePromise`).  Its `messagePromise.ts`
body is an external collaborator here: `OutgoingMessageManager` only reads
the `isResolved` flag and applies the `isSame` match predicate, so the
promise is embedded as those two components (the predicate as a function
field). -/
structure MessagePromise where
  isResolved : Bool
  isSame : Message → Bool

/-- Embeds `OutgoingMessageManager`: the ordered list of registered promises. -/
structure OutgoingMessageManager where
  promises : List MessagePromise

/-- Embeds `OutgoingMessageManager.add`: append a promise. -/
def OutgoingMessageManager.add (m : OutgoingMessageManager) (p : MessagePromise) :
    OutgoingMessageManager :=
  ⟨m.promises ++ [p]⟩

/-- The indexed scan loop shared by `findIndex` and `find`: skip resolved
promises unless `includeResolved`, return the index of the first promise
whose `isSame` accepts the message, `-1` when none does. -/
def findIndexLoop (message : Message) (includeResolved : Bool) :
    List MessagePromise → Nat → Int
  | [], _ => -1
  | p :: rest, i =>
    if !includeResolved && p.isResolved then findIndexLoop message includeResolved rest (i + 1)
    else if p.isSame message then Int.ofNat i
    else findIndexLoop message includeResolved rest (i + 1)

/-- Embeds `OutgoingMessageManager.findIndex(message, includeResolved = false)`. -/
def OutgoingMessageManager.findIndex (m : OutgoingMessageManager) (message : Message)
    (includeResolved : Bool := false) : Int :=
  findIndexLoop message includeResolved m.promises 0

/-- The scan loop of `find`: same rule, returning the promise itself
(`none` embeds the TS `null`). -/
def findLoop (message : Message) (includeResolved : Bool) :
    List MessagePromise → Option MessagePromise
  | [] => none
  | p :: rest =>
    if !includeResolved && p.isResolved then findLoop message includeResolved rest
    else if p.isSame message then some p
    else findLoop message includeResolved rest

/-- Embeds `OutgoingMessageManager.find(message, includeResolved = false)`. -/
def OutgoingMessageManager.find (m : OutgoingMessageManager) (message : Message)
    (includeResolved : Bool := false) : Option MessagePromise :=
  findLoop message includeResolved m.promises

/-- The match rule of the scan, as the spec words it: consider a promise when
it is unresolved or `includeResolved` is set, and match it with `isSame`. -/
def matchRule (includeResolved : Bool) (message : Message) (p : MessagePromise) : Bool :=
  (includeResolved || !p.isResolved) && p.isSame message

/-- The first matching index, as the spec words it: position of the first
promise in insertion order satisfying the match rule. -/
def findIndexSpec (rule : MessagePromise → Bool) : List MessagePromise → Option Nat
  | [] => none
  | p :: rest => if rule p then some 0 else (findIndexSpec rule rest).map (· + 1)

/-- What the helper-service restart handler does on one event: a socket-server
`error` restarts (`this.start()`) while `restartCounter <= 5` and otherwise
only logs the max-restart diagnostic; the successful-listen callback resets
the counter to `0`. -/
inductive HelperAction where
  | restart
  | logMaxReached
  | counterReset
  deriving Repr, DecidableEq

/-- An observable lifecycle event of the helper socket server. -/
inductive HelperEvent where
  | socketError
  | listenSuccess
  deriving Repr, DecidableEq

/-- One step of the restart state machine (`configureServer`'s
`server.on("error", ...)` handler and the `server.listen` callback of
`start`), on the `restartCounter` field. -/
def helperStep (restartCounter : Nat) : HelperEvent → Nat × HelperAction
  | HelperEvent.socketError =>
    if restartCounter ≤ 5 then (restartCounter + 1, HelperAction.restart)
    else (restartCounter, HelperAction.logMaxReached)
  | HelperEvent.listenSuccess => (0, HelperAction.counterReset)

/-- Run the restart state machine over an event trace, collecting the action
taken at each event. -/
def helperRun (restartCounter : Nat) : List HelperEvent → Nat × List HelperAction
  | [] => (restartCounter, [])
  | e :: rest =>
    let (c', a) := helperStep restartCounter e
    let (c'', as) := helperRun c' rest
    (c'', a :: as)

/-- One conversation's entry in the typing cache: `{ lastValue, lastSeen }`. -/
structure TypingEntry where
  lastValue : Bool
  lastSeen : Int
  deriving Repr, DecidableEq

/-- Embeds `BlueBubblesHelperService.handleTypingIndicator`: decide whether to emit
a typing-indicator event and update the per-guid cache only when emitting.
The cache (a JS object) is an association list updated by shadowing; `now`
is the `new Date().getTime()` value.  Returns the new cache and `some
display` when the event was emitted (`Server().emitMessage`), `none`
otherwise. -/
def handleTypingIndicator (typingCache : List (String × TypingEntry))
    (event guid : String) (now : Int) :
    List (String × TypingEntry) × Option Bool :=
  let display := event == "started-typing"
  let shouldEmit :=
    match typingCache.lookup guid with
    | none => true
    | some entry =>
      if entry.lastValue != display then true
      else
        decide (now - entry.lastSeen > 5000)
  if shouldEmit then ((guid, ⟨display, now⟩) :: typingCache, some display)
  else (typingCache, none)

/-- An outstanding request in the transaction correlator, keyed by its
correlation id. -/
structure Transaction where
  transactionId : String
  deriving Repr, DecidableEq

/-- Modelled from the spec: the `TransactionManager` / `TransactionPromise`
classes (`@server/managers/transactionManager`) are not under `src/`; §4.4
and §3 give their contract: `add(txn)` registers an outstanding transaction
keyed by its correlation id, `findIndex(id)` locates it, and on receipt of a
tagged response the transaction is fulfilled (success payload) or rejected
(error payload) and removed — destroyed on its first terminal transition. -/
structure TransactionManager where
  promises : List Transaction
  deriving Repr, DecidableEq

def TransactionManager.add (tm : TransactionManager) (t : Transaction) : TransactionManager :=
  ⟨tm.promises ++ [t]⟩

/-- Embeds `TransactionManager.findIndex(id)`: index of the outstanding transaction
with the given correlation id, `-1` when none. -/
def TransactionManager.findIndexInt (tm : TransactionManager) (id : String) : Int :=
  match tm.promises.findIdx? (fun t => t.transactionId == id) with
  | some i => Int.ofNat i
  | none => -1

/-- Modelled from the spec: settling (`resolve` / `reject`) the promise at
index `i` removes it from the correlator (§4.4: "fulfilled … or rejected …
and removed", §3: "destroyed on first terminal transition"). -/
def TransactionManager.settleAt (tm : TransactionManager) (i : Nat) : TransactionManager :=
  ⟨tm.promises.eraseIdx i⟩

/-- A parsed inbound helper frame: the fields the `data` handler reads.
Absent JS fields are `none`. -/
structure HelperFrame where
  transactionId : Option String := none
  error : Option String := none
  identifier : Option String := none
  event : Option String := none
  guid : Option String := none
  deriving Repr, DecidableEq

/-- Outcome of `JSON.parse` on one frame: a thrown `SyntaxError`, the JS
value `null`, or an object. -/
inductive ParseResult where
  | fail
  | nullVal
  | obj (frame : HelperFrame)
  deriving Repr, DecidableEq

/-- A reified side effect of the socket `data` handler. -/
inductive SocketEffect where
  | log (msg : String)
  | logDebug (msg : String)
  | settleResolve (id : String) (identifier : Option String)
  | settleReject (id : String) (err : String)
  | typingIndicator (event : String) (guid : Option String)
  | messageUpdate (guid : Option String)
  | destroyConnection
  deriving Repr, DecidableEq

/-- JS truthiness of an optional string field: `undefined`/`null` and the
empty string are falsy. -/
def jsTruthy : Option String → Bool
  | none => false
  | some s => s ≠ ""

/-- The per-frame dispatch of the `data` handler: a truthy `transactionId`
resolves or rejects (and, per the spec-modelled correlator, removes) the
matching transaction when `findIndex` succeeds; otherwise a truthy `event`
is routed by name (`ping`, typing events to `handleTypingIndicator`,
`message-update` to the PAPI listener). -/
def dispatchFrame (tm : TransactionManager) (data : HelperFrame) :
    TransactionManager × List SocketEffect :=
  if jsTruthy data.transactionId then
    match tm.promises.findIdx? (fun t => t.transactionId == data.transactionId.getD "") with
    | none => (tm, [])
    | some i =>
      if (data.error.getD "") ≠ "" then
        (tm.settleAt i, [SocketEffect.settleReject (data.transactionId.getD "") (data.error.getD "")])
      else
        (tm.settleAt i, [SocketEffect.settleResolve (data.transactionId.getD "") data.identifier])
  else if jsTruthy data.event then
    if data.event.getD "" == "ping" then (tm, [SocketEffect.log "Private API Helper connected!"])
    else if data.event.getD "" == "started-typing" || data.event.getD "" == "stopped-typing" then
      (tm, [SocketEffect.typingIndicator (data.event.getD "") data.guid])
    else if data.event.getD "" == "message-update" then (tm, [SocketEffect.messageUpdate data.guid])
    else (tm, [])
  else (tm, [])

/-- Embeds the frame-skipping test `!event || event.trim().length === 0`:
the frame is empty or consists only of whitespace. -/
def jsBlank (s : String) : Bool := s.data.all Char.isWhitespace

/-- The loop of the `data` handler over the de-duplicated frames: blank
frames are skipped (`continue`); a frame that fails to parse, or parses to
`null`, is logged and the handler returns — the TS `return` inside the loop
stops processing of the remaining frames of the burst; a parsed object is
dispatched. -/
def processEvents (parse : String → ParseResult) (tm : TransactionManager) :
    List String → TransactionManager × List SocketEffect
  | [] => (tm, [])
  | e :: rest =>
    if jsBlank e then processEvents parse tm rest
    else
      let received := SocketEffect.logDebug ("Received data from BlueBubblesHelper: " ++ e)
      match parse e with
      | ParseResult.fail =>
        (tm, [received, SocketEffect.log ("Failed to decode BlueBubblesHelper data! " ++ e)])
      | ParseResult.nullVal =>
        (tm, [received, SocketEffect.log "BlueBubblesHelper sent null data"])
      | ParseResult.obj data =>
        let r := dispatchFrame tm data
        let r' := processEvents parse r.1 rest
        (r'.1, received :: (r.2 ++ r'.2))

/-- Embeds `[...new Set(eventData)]`: de-duplicate, keeping the first occurrence of
each frame in order. -/
def jsSetDedupAux (seen : List String) : List String → List String
  | [] => []
  | x :: rest =>
    if seen.contains x then jsSetDedupAux seen rest
    else x :: jsSetDedupAux (seen ++ [x]) rest

def jsSetDedup (l : List String) : List String := jsSetDedupAux [] l

/-- Embeds `String(eventRaw).split("\n")`, structurally over the character
list: split at every newline, keeping empty pieces. -/
def splitNewlineAux : List Char → List Char → List String
  | [], acc => [String.mk acc.reverse]
  | c :: rest, acc =>
    if c = '\n' then String.mk acc.reverse :: splitNewlineAux rest []
    else splitNewlineAux rest (c :: acc)

def splitNewline (s : String) : List String := splitNewlineAux s.data []

/-- The socket `data` handler of `BlueBubblesHelperService.setupListeners`:
split the read into newline-delimited frames, de-duplicate the burst, and
process the frames in order.  `parse` abstracts `JSON.parse`. -/
def handleData (parse : String → ParseResult) (tm : TransactionManager) (eventRaw : String) :
    TransactionManager × List SocketEffect :=
  let eventData := splitNewline eventRaw
  let uniqueEvents := jsSetDedup eventData
  processEvents parse tm uniqueEvents

/-- The query parameters `IncomingMessageListener.getEntries` passes to
`repo.getMessages`: the window bounds and the `is_from_me` filter argument. -/
structure MessageQuery where
  after : Int
  before : Int
  fromMe : Int
  deriving Repr, DecidableEq

/-- Embeds `IncomingMessageListener.getEntries(after, before)`: offset the window
start by 15 seconds, query the store for non-self rows, and for each row add
its cache key and emit it unless the key is already cached.  `getMessages`
abstracts the repository, `getCacheName` the cache-key helper; the issued
query, the final cache and the emitted rows are returned. -/
def IncomingMessageListener.getEntries (getMessages : MessageQuery → List Message)
    (getCacheName : Message → String) (cache : EventCache) (after before : Int) :
    MessageQuery × EventCache × List Message :=
  let offsetDate := after - 15000
  let query : MessageQuery := { after := offsetDate, before := before, fromMe := 0 }
  let entries := getMessages query
  let result := entries.foldl
    (fun (acc : EventCache × List Message) entry =>
      let cacheName := getCacheName entry
      if acc.1.find cacheName then acc
      else (acc.1.add cacheName, acc.2 ++ [entry]))
    (cache, [])
  (query, result.1, result.2)

/-- The spec's words for the per-row gating of a polling listener (§4.2):
skip a row whose cache key is already in the dedup cache; otherwise add the
key to the cache and then emit a `new-entry` event carrying the row. -/
def getEntriesSpec (key : Message → String) :
    EventCache → List Message → EventCache × List Message
  | cache, [] => (cache, [])
  | cache, e :: rest =>
    if cache.find (key e) then getEntriesSpec key cache rest
    else
      let r := getEntriesSpec key (cache.add (key e)) rest
      (r.1, e :: r.2)

/-- Whether one of the five tracked timestamps of `m` advanced strictly past
the snapshot `s` (absent timestamps read as `0`). -/
def advanced (m : Message) (s : MessageState) : Prop :=
  m.dateCreated > s.dateCreated ∨ m.dateDelivered.getD 0 > s.dateDelivered ∨
    m.dateRead.getD 0 > s.dateRead ∨ m.dateEdited.getD 0 > s.dateEdited ∨
    m.dateRetracted.getD 0 > s.dateRetracted

instance (m : Message) (s : MessageState) : Decidable (advanced m s) := by
  unfold advanced; infer_instance

/-! Concrete instances used to evaluate the embedded code at specific
inputs. -/

/-- A self-authored message that the store reports as sent with no error. -/
def c1Message : Message :=
  { guid := "G1", dateCreated := 1000, isFromMe := true, isSent := true, error := some 0 }

/-- A store holding exactly `c1Message`. -/
def c1Repo : String → Option Message := fun g => if g = "G1" then some c1Message else none

/-- A message with an advanced delivery timestamp relative to `c2Snapshot`. -/
def c2Message : Message :=
  { guid := "G2", dateCreated := 1000, dateDelivered := some 2000 }

/-- The snapshot recorded for `"G2"` before the delivery advanced. -/
def c2Snapshot : MessageState :=
  { dateCreated := 1000, dateDelivered := 0, dateRead := 0, dateEdited := 0, dateRetracted := 0 }

/-- A listener state that has seen `"G2"` with snapshot `c2Snapshot`. -/
def c2State : PAPIListenerState :=
  { cache := ⟨["G2"]⟩, cacheState := [("G2", c2Snapshot)] }

/-- A fresh incoming message processed against the empty listener state. -/
def c3Message : Message :=
  { guid := "G3", dateCreated := 5000, dateRead := some 6000 }

/-- A concrete stand-in for `JSON.parse` on the frames of the C6 burst:
`JSON.parse` throws on the bare word `badF` and parses the two JSON
objects. -/
def c6Parse : String → ParseResult := fun s =>
  if s = "\x7b\"event\":\"ping\"\x7d" then ParseResult.obj { event := some "ping" }
  else if s = "\x7b\"event\":\"started-typing\",\"guid\":\"c9\"\x7d" then
    ParseResult.obj { event := some "started-typing", guid := some "c9" }
  else ParseResult.fail

/-- One read burst: a well-formed frame, a malformed frame, and another
well-formed frame, newline-delimited. -/
def c6Burst : String :=
  "\x7b\"event\":\"ping\"\x7d\nbadF\n\x7b\"event\":\"started-typing\",\"guid\":\"c9\"\x7d"

/-- A correlator holding one outstanding transaction with id `"T1"`. -/
def c7Manager : TransactionManager := ⟨[⟨"T1"⟩]⟩

/-- A response frame tagged with transaction id `"T1"` and no error. -/
def c7Frame : HelperFrame := { transactionId := some "T1" }

/-- A promise whose match predicate accepts guid `"G8"`, already resolved. -/
def c10Resolved : MessagePromise :=
  { isResolved := true, isSame := fun m => m.guid == "G8" }

/-- An unresolved promise whose match predicate accepts only guid `"X"`. -/
def c10Other : MessagePromise :=
  { isResolved := false, isSame := fun m => m.guid == "X" }

/-- A record matched only by the resolved promise. -/
def c10Message : Message := { guid := "G8", dateCreated := 0 }

/-- An unresolved promise whose match predicate accepts guid `"G8"`. -/
def c8Match : MessagePromise :=
  { isResolved := false, isSame := fun m => m.guid == "G8" }

end BB

namespace BB

/-! ## Helper lemmas -/

lemma findLoop_eq_find? (message : Message) (inc : Bool) (l : List MessagePromise) :
    findLoop message inc l = l.find? (matchRule inc message) := by
  induction l with
  | nil => rfl
  | cons p rest ih =>
    cases inc <;> cases hres : p.isResolved <;> cases hsame : p.isSame message <;>
      simp [findLoop, matchRule, List.find?_cons, hres, hsame, ih]

lemma findIndexLoop_eq (message : Message) (inc : Bool) (l : List MessagePromise) :
    ∀ i : Nat, findIndexLoop message inc l i =
      (match findIndexSpec (matchRule inc message) l with
       | some j => Int.ofNat (i + j)
       | none => -1) := by
  induction l with
  | nil => intro i; rfl
  | cons p rest ih =>
    intro i
    cases hspec : findIndexSpec (matchRule inc message) rest with
    | none =>
      cases inc <;> cases hres : p.isResolved <;> cases hsame : p.isSame message <;>
        simp [findIndexLoop, findIndexSpec, matchRule, hres, hsame, ih, hspec]
    | some j =>
      cases inc <;> cases hres : p.isResolved <;> cases hsame : p.isSame message <;>
        simp [findIndexLoop, findIndexSpec, matchRule, Int.ofNat_eq_coe, hres, hsame, ih,
          hspec] <;>
        ring

lemma findIndexSpec_eq_none (rule : MessagePromise → Bool) (l : List MessagePromise)
    (h : ∀ p ∈ l, rule p = false) : findIndexSpec rule l = none := by
  induction l with
  | nil => rfl
  | cons p rest ih =>
    simp [findIndexSpec, h p (List.mem_cons_self p rest),
      ih (fun q hq => h q (List.mem_cons_of_mem p hq))]

lemma findIndexSpec_get? (rule : MessagePromise → Bool) (l : List MessagePromise) :
    ∀ i : Nat, findIndexSpec rule l = some i → l.get? i = l.find? rule := by
  induction l with
  | nil => intro i h; simp [findIndexSpec] at h
  | cons p rest ih =>
    intro i h
    by_cases hp : rule p
    · simp [findIndexSpec, hp] at h
      subst h
      simp [List.find?_cons, hp]
    · simp [findIndexSpec, hp] at h
      obtain ⟨j, hj, hij⟩ := h
      subst hij
      have hrec := ih j hj
      have hpf : rule p = false := by simpa using hp
      simp only [List.get?_cons_succ, List.find?_cons, hpf]
      exact hrec

/-! ## Claim theorems -/

/-- C8: `OutgoingMessageManager.find(message, includeResolved)` scans the
registered promises in insertion order and returns the first promise
satisfying the match rule (skipping resolved promises unless
`includeResolved`, then applying `isSame`); `findIndex` returns the index of
that same promise under the same rule (`-1` when none), and the promise at
that index is exactly the one `find` returns. -/
theorem C8_find_findIndex_first_match (m : OutgoingMessageManager) (msg : Message) (inc : Bool) :
    m.find msg inc = m.promises.find? (matchRule inc msg) ∧
    m.findIndex msg inc =
      (match findIndexSpec (matchRule inc msg) m.promises with
       | some j => Int.ofNat j
       | none => -1) ∧
    (∀ j, findIndexSpec (matchRule inc msg) m.promises = some j →
      m.promises.get? j = m.find msg inc) := by
  refine ⟨findLoop_eq_find? msg inc m.promises, ?_, ?_⟩
  · have h := findIndexLoop_eq msg inc m.promises 0
    simpa [OutgoingMessageManager.findIndex] using h
  · intro j hj
    rw [OutgoingMessageManager.find, findLoop_eq_find?]
    exact findIndexSpec_get? (matchRule inc msg) m.promises j hj

/-- C8 witness: on a concrete manager holding a resolved matching promise
followed by an unresolved matching one, `findIndex` points at index 1 and
the promise there is the one `find` returns. -/
theorem C8_witness :
    List.get? [c10Resolved, c8Match] 1 =
      OutgoingMessageManager.find ⟨[c10Resolved, c8Match]⟩ c10Message false :=
  (C8_find_findIndex_first_match ⟨[c10Resolved, c8Match]⟩ c10Message false).2.2 1 (by rfl)

/-- C10: when no registered promise passes the default match rule (resolved
promises are skipped, the rest fail `isSame`), `find` returns `null`
(embedded `none`) and `findIndex` returns `-1`; both are total functions, so
no error is raised and callers receive the explicit no-match values. -/
theorem C10_no_match_null (m : OutgoingMessageManager) (msg : Message)
    (h : ∀ p ∈ m.promises, matchRule false msg p = false) :
    m.find msg = none ∧ m.findIndex msg = -1 := by
  constructor
  · rw [OutgoingMessageManager.find, findLoop_eq_find?]
    exact List.find?_eq_none.mpr (fun p hp => by simp [h p hp])
  · rw [OutgoingMessageManager.findIndex, findIndexLoop_eq,
      findIndexSpec_eq_none (matchRule false msg) m.promises h]

/-- C10 witness: a manager holding only a resolved matching promise and an
unresolved non-matching one yields `none` and `-1` for the record. -/
theorem C10_witness :
    OutgoingMessageManager.find ⟨[c10Resolved, c10Other]⟩ c10Message = none ∧
    OutgoingMessageManager.findIndex ⟨[c10Resolved, c10Other]⟩ c10Message = -1 :=
  C10_no_match_null ⟨[c10Resolved, c10Other]⟩ c10Message (by decide)

/-- C2: `getMessageEvent` returns `new-entry` exactly when the guid is not in
the dedup cache; when the guid is cached but no snapshot exists it returns
`null`; and with a snapshot present it returns `updated-entry` exactly when
one of the five tracked timestamps (absent ones read as `0`) is strictly
greater than the snapshot value, and `null` otherwise. -/
theorem C2_classification (st : PAPIListenerState) (m : Message) :
    (getMessageEvent st m = some "new-entry" ↔ st.cache.find m.guid = false) ∧
    (st.cache.find m.guid = true → st.cacheState.lookup m.guid = none →
      getMessageEvent st m = none) ∧
    (∀ s, st.cache.find m.guid = true → st.cacheState.lookup m.guid = some s →
      ((getMessageEvent st m = some "updated-entry" ↔ advanced m s) ∧
        (getMessageEvent st m = none ↔ ¬ advanced m s))) := by
  have hchain : ∀ s, st.cache.find m.guid = true → st.cacheState.lookup m.guid = some s →
      getMessageEvent st m =
        (if m.dateCreated > s.dateCreated then some "updated-entry"
         else if m.dateDelivered.getD 0 > s.dateDelivered then some "updated-entry"
         else if m.dateRead.getD 0 > s.dateRead then some "updated-entry"
         else if m.dateEdited.getD 0 > s.dateEdited then some "updated-entry"
         else if m.dateRetracted.getD 0 > s.dateRetracted then some "updated-entry"
         else none) := by
    intro s hf hl
    simp [getMessageEvent, hf, hl]
  refine ⟨?_, ?_, ?_⟩
  · by_cases hf : st.cache.find m.guid = true
    · cases hl : st.cacheState.lookup m.guid with
      | none => simp [getMessageEvent, hf, hl]
      | some s =>
        rw [hchain s hf hl]
        split_ifs <;> simp [hf]
    · simp [getMessageEvent, Bool.eq_false_iff.mpr hf, eq_false_of_ne_true hf]
  · intro hf hl
    simp [getMessageEvent, hf, hl]
  · intro s hf hl
    rw [hchain s hf hl]
    constructor
    · split_ifs with h1 h2 h3 h4 h5 <;> simp [advanced] <;> omega
    · split_ifs with h1 h2 h3 h4 h5 <;> simp [advanced] <;> omega

/-- C2 witness: a cached guid whose snapshot shows no delivery, re-observed
with an advanced `dateDelivered`, classifies as `updated-entry`. -/
theorem C2_witness : getMessageEvent c2State c2Message = some "updated-entry" :=
  ((C2_classification c2State c2Message).2.2 c2Snapshot (by decide) (by decide)).1.mpr
    (by decide)

/-- C3: processing a record whose guid was never added to the dedup cache
yields `new-entry`, afterwards the cache contains the guid and the snapshot
holds the record's current timestamp values, and re-processing the identical
record yields no event and leaves the listener state unchanged. -/
theorem C3_new_then_idempotent (st : PAPIListenerState) (m : Message)
    (h : st.cache.find m.guid = false) :
    (processMessageEvent st m).2 = some "new-entry" ∧
    (processMessageEvent st m).1.cache.find m.guid = true ∧
    (processMessageEvent st m).1.cacheState.lookup m.guid = some (snapshotOf m) ∧
    processMessageEvent (processMessageEvent st m).1 m = ((processMessageEvent st m).1, none) := by
  have hev : getMessageEvent st m = some "new-entry" := by
    simp [getMessageEvent, h]
  have hst1 : (processMessageEvent st m).1 =
      { cache := st.cache.add m.guid,
        cacheState := (m.guid, snapshotOf m) :: st.cacheState,
        notSent := st.notSent } := by
    simp [processMessageEvent, hev]
  have hfind1 : (st.cache.add m.guid).find m.guid = true := by
    unfold EventCache.add
    rw [if_neg (by simp [h])]
    simp [EventCache.find]
  have hlookup1 : List.lookup m.guid ((m.guid, snapshotOf m) :: st.cacheState) =
      some (snapshotOf m) := by
    simp [List.lookup]
  have hev2 : getMessageEvent (processMessageEvent st m).1 m = none := by
    rw [hst1]
    simp [getMessageEvent, hfind1, hlookup1, snapshotOf]
  refine ⟨by simp [processMessageEvent, hev], ?_, ?_, ?_⟩
  · rw [hst1]; exact hfind1
  · rw [hst1]; exact hlookup1
  · have hnull : ∀ st1 : PAPIListenerState, getMessageEvent st1 m = none →
        processMessageEvent st1 m = (st1, none) := by
      intro st1 h1
      simp [processMessageEvent, h1]
    exact hnull _ hev2

/-- C3 witness: a fresh record against the empty listener state. -/
theorem C3_witness :
    (processMessageEvent {} c3Message).2 = some "new-entry" ∧
    (processMessageEvent {} c3Message).1.cache.find c3Message.guid = true ∧
    (processMessageEvent {} c3Message).1.cacheState.lookup c3Message.guid =
      some (snapshotOf c3Message) ∧
    processMessageEvent (processMessageEvent {} c3Message).1 c3Message =
      ((processMessageEvent {} c3Message).1, none) :=
  C3_new_then_idempotent {} c3Message (by decide)

/-- C1: the claim expects a push notification for a self-authored record with
`isSent` true and error code `0` to resolve the matching pending send, emit a
normal outgoing event, and complete without error.  The code instead throws:
with `isSent` true, `newUnsent` is `null` and `handleOutgoingMessage` reads
`newUnsent.guid` (line `let unsentIds: string = newUnsent.guid`), so
`onReceiveMessageUpdate` rejects with a `TypeError` before any
`messageManager.resolve` call or emission — and would throw again iterating
the never-initialized `this.notSent`. -/
theorem C1_sent_notification_throws :
    c1Message.isSent = true ∧ c1Message.error.getD 0 = 0 ∧
    onReceiveMessageUpdate c1Repo (fun _ => false) {} "G1" true true =
      Except.error (JsError.typeError "Cannot read properties of null (reading guid)") :=
  ⟨rfl, rfl, rfl⟩

lemma helperRun_errors (n : Nat) :
    ∀ c : Nat, c ≤ 6 →
      helperRun c (List.replicate n HelperEvent.socketError) =
        (min (c + n) 6,
          List.replicate (min n (6 - c)) HelperAction.restart ++
            List.replicate (n - (6 - c)) HelperAction.logMaxReached) := by
  induction n with
  | zero =>
    intro c hc
    simp [helperRun]
    omega
  | succ n ih =>
    intro c hc
    rw [List.replicate_succ]
    by_cases h5 : c ≤ 5
    · have hstep : helperStep c HelperEvent.socketError = (c + 1, HelperAction.restart) := by
        simp [helperStep, h5]
      have e1 : min (c + (n + 1)) 6 = min (c + 1 + n) 6 := by omega
      have e2 : min (n + 1) (6 - c) = min n (6 - (c + 1)) + 1 := by omega
      have e3 : (n + 1) - (6 - c) = n - (6 - (c + 1)) := by omega
      simp only [helperRun, hstep, ih (c + 1) (by omega), e1, e2, e3, List.replicate_succ,
        List.cons_append]
    · have hc6 : c = 6 := by omega
      subst hc6
      have hstep : helperStep 6 HelperEvent.socketError = (6, HelperAction.logMaxReached) := by
        simp [helperStep]
      have e1 : min (6 + n) 6 = 6 := by omega
      have e4 : min (6 + (n + 1)) 6 = 6 := by omega
      simp only [helperRun, hstep, ih 6 (by omega), e1, e4, Nat.sub_self, Nat.sub_zero,
        Nat.min_self]
      simp [List.replicate_succ]

/-- C4 counterexample: starting from a reset counter, five consecutive socket
errors produce five restarts and leave the counter at 5, and the sixth
consecutive failure still attempts another restart (the guard is
`restartCounter <= 5`), contradicting the claim that the sixth failure only
logs a diagnostic. -/
theorem C4_counterexample :
    helperRun 0 (List.replicate 5 HelperEvent.socketError) =
      (5, List.replicate 5 HelperAction.restart) ∧
    helperStep 5 HelperEvent.socketError = (6, HelperAction.restart) ∧
    (helperRun 0 (List.replicate 6 HelperEvent.socketError)).2 =
      List.replicate 6 HelperAction.restart := by
  decide

/-- C4 amended: the automatic restart is capped at 6 consecutive restarts —
each of the first six consecutive socket-server errors triggers a restart,
every further failure records only the max-restart diagnostic log, and a
successful listen resets the counter to 0. -/
theorem C4_restart_cap (n : Nat) :
    helperRun 0 (List.replicate n HelperEvent.socketError) =
      (min n 6,
        List.replicate (min n 6) HelperAction.restart ++
          List.replicate (n - 6) HelperAction.logMaxReached) ∧
    (∀ c, helperStep c HelperEvent.listenSuccess = (0, HelperAction.counterReset)) := by
  constructor
  · have h := helperRun_errors n 0 (by omega)
    simpa using h
  · intro c
    rfl

lemma typing_cases (c : List (String × TypingEntry)) (e g : String) (t : Int) :
    ((handleTypingIndicator c e g t).2 = some (e == "started-typing") ∧
      (handleTypingIndicator c e g t).1 = (g, ⟨e == "started-typing", t⟩) :: c) ∨
    ((handleTypingIndicator c e g t).2 = none ∧ (handleTypingIndicator c e g t).1 = c) := by
  unfold handleTypingIndicator
  cases hl : List.lookup g c with
  | none => left; simp [hl]
  | some en =>
    by_cases hv : (en.lastValue != (e == "started-typing")) = true
    · left; simp [hl, hv]
    · have hv' : (en.lastValue != (e == "started-typing")) = false := by simpa using hv
      by_cases ht : t - en.lastSeen > 5000
      · left; simp [hl, hv', ht]
      · right; simp [hl, hv', ht]

/-- C5: for two consecutive typing events with the same typing value for the
same guid, the second is emitted exactly when more than 5 seconds elapsed
since the first (emitted) one; an event for a never-seen guid, or one whose
typing value differs from the last emitted value, is always emitted; and the
per-guid cache entry is updated only on emission. -/
theorem C5_typing_debounce (cache : List (String × TypingEntry)) (event guid : String)
    (t1 t2 : Int) (h : (handleTypingIndicator cache event guid t1).2.isSome = true) :
    ((handleTypingIndicator (handleTypingIndicator cache event guid t1).1
        event guid t2).2.isSome = true ↔ t2 - t1 > 5000) ∧
    (∀ (c : List (String × TypingEntry)) (e g : String) (t : Int),
      c.lookup g = none → (handleTypingIndicator c e g t).2.isSome = true) ∧
    (∀ (c : List (String × TypingEntry)) (e g : String) (t : Int) (en : TypingEntry),
      c.lookup g = some en → en.lastValue ≠ (e == "started-typing") →
      (handleTypingIndicator c e g t).2.isSome = true) ∧
    (∀ (c : List (String × TypingEntry)) (e g : String) (t : Int),
      (handleTypingIndicator c e g t).2 = none → (handleTypingIndicator c e g t).1 = c) := by
  refine ⟨?_, ?_, ?_, ?_⟩
  · have hc1 : (handleTypingIndicator cache event guid t1).1 =
        (guid, ⟨event == "started-typing", t1⟩) :: cache := by
      rcases typing_cases cache event guid t1 with ⟨_, h1⟩ | ⟨h1, _⟩
      · exact h1
      · rw [h1] at h; simp at h
    rw [hc1]
    unfold handleTypingIndicator
    simp only [List.lookup, beq_self_eq_true, bne_self_eq_false, Bool.false_eq_true, if_false]
    split_ifs with hd <;> simp_all
  · intro c e g t hl
    simp [handleTypingIndicator, hl]
  · intro c e g t en hl hv
    have hvb : (en.lastValue != (e == "started-typing")) = true := by
      simpa using hv
    simp [handleTypingIndicator, hl, hvb]
  · intro c e g t h2
    rcases typing_cases c e g t with ⟨h1, _⟩ | ⟨_, h1⟩
    · rw [h2] at h1; simp at h1
    · exact h1

/-- C5 witness: a first `started-typing` event for a fresh conversation is
emitted, and a repeat 6 seconds later is emitted again exactly because more
than 5 seconds elapsed. -/
theorem C5_witness :
    (handleTypingIndicator (handleTypingIndicator [] "started-typing" "c1" 0).1
        "started-typing" "c1" 6000).2.isSome = true ↔ (6000 : Int) - 0 > 5000 :=
  (C5_typing_debounce [] "started-typing" "c1" 0 6000 (by decide)).1

lemma dispatchFrame_no_destroy (tm : TransactionManager) (data : HelperFrame) :
    SocketEffect.destroyConnection ∉ (dispatchFrame tm data).2 := by
  unfold dispatchFrame
  by_cases h1 : jsTruthy data.transactionId = true
  · rw [if_pos h1]
    cases hfi : List.findIdx? (fun t => t.transactionId == data.transactionId.getD "")
        tm.promises with
    | none => simp
    | some i => split_ifs <;> simp
  · rw [if_neg h1]
    split_ifs <;> simp

lemma processEvents_no_destroy (parse : String → ParseResult) :
    ∀ (l : List String) (tm : TransactionManager),
      SocketEffect.destroyConnection ∉ (processEvents parse tm l).2 := by
  intro l
  induction l with
  | nil => intro tm; simp [processEvents]
  | cons e rest ih =>
    intro tm
    unfold processEvents
    by_cases ht : jsBlank e = true
    · simpa [ht] using ih tm
    · rw [if_neg (by simp [ht])]
      cases hp : parse e with
      | fail => simp
      | nullVal => simp
      | obj data =>
        simp only [List.mem_cons, List.mem_append]
        push_neg
        exact ⟨by simp, fun hmem => absurd hmem (dispatchFrame_no_destroy tm data),
          fun hmem => absurd hmem (ih (dispatchFrame tm data).1)⟩

/-- C6 counterexample: in the burst `c6Burst` (a well-formed `ping` frame,
the malformed frame `badF`, then a well-formed typing frame), the malformed
frame is logged and the connection is not destroyed, but the well-formed
typing frame AFTER the malformed one is never processed — the `catch` block
does `return`, not `continue` — refuting "every other well-formed frame in
the same read burst is still processed". -/
theorem C6_counterexample :
    (SocketEffect.log "Failed to decode BlueBubblesHelper data! badF"
        ∈ (handleData c6Parse ⟨[]⟩ c6Burst).2) ∧
    SocketEffect.destroyConnection ∉ (handleData c6Parse ⟨[]⟩ c6Burst).2 ∧
    SocketEffect.log "Private API Helper connected!" ∈ (handleData c6Parse ⟨[]⟩ c6Burst).2 ∧
    SocketEffect.typingIndicator "started-typing" (some "c9")
        ∉ (handleData c6Parse ⟨[]⟩ c6Burst).2 := by
  decide

/-- C6 amended: when a read burst contains a malformed frame, the malformed
frame is logged and discarded and the connection is not terminated, and the
well-formed frames BEFORE the malformed one are processed normally — but the
handler returns at the malformed frame, so the frames after it in the same
burst are not processed. -/
theorem C6_amended_malformed_stops_burst (parse : String → ParseResult)
    (tm : TransactionManager) (pre post : List String) (bad : String)
    (hpre : ∀ e ∈ pre, jsBlank e = false →
      parse e ≠ ParseResult.fail ∧ parse e ≠ ParseResult.nullVal)
    (hbadne : jsBlank bad = false)
    (hbad : parse bad = ParseResult.fail) :
    (processEvents parse tm (pre ++ bad :: post) =
      ((processEvents parse tm pre).1,
        (processEvents parse tm pre).2 ++
          [SocketEffect.logDebug ("Received data from BlueBubblesHelper: " ++ bad),
            SocketEffect.log ("Failed to decode BlueBubblesHelper data! " ++ bad)])) ∧
    (∀ (raw : String) (tm' : TransactionManager),
      SocketEffect.destroyConnection ∉ (handleData parse tm' raw).2) := by
  constructor
  · induction pre generalizing tm with
    | nil =>
      simp only [List.nil_append]
      unfold processEvents
      rw [if_neg (by simp [hbadne]), hbad]
      simp [processEvents]
    | cons e pre' ih =>
      have hpre' : ∀ x ∈ pre', jsBlank x = false →
          parse x ≠ ParseResult.fail ∧ parse x ≠ ParseResult.nullVal :=
        fun x hx => hpre x (List.mem_cons_of_mem e hx)
      simp only [List.cons_append]
      unfold processEvents
      by_cases ht : jsBlank e = true
      · rw [if_pos ht, if_pos ht]
        exact ih tm hpre'
      · have htf : jsBlank e = false := by simpa using ht
        rw [if_neg (by simp [htf]), if_neg (by simp [htf])]
        cases hp : parse e with
        | fail => exact absurd hp (hpre e (List.mem_cons_self e pre') htf).1
        | nullVal => exact absurd hp (hpre e (List.mem_cons_self e pre') htf).2
        | obj data =>
          dsimp only
          rw [ih (dispatchFrame tm data).1 hpre']
          simp
  · intro raw tm'
    unfold handleData
    exact processEvents_no_destroy parse (jsSetDedup (splitNewline raw)) tm'

/-- C6 amended witness: the amended statement at the concrete burst of
`C6_counterexample`, with the well-formed ping frame before and the typing
frame after the malformed `badF`. -/
theorem C6_witness :
    (processEvents c6Parse ⟨[]⟩
        (["\x7b\"event\":\"ping\"\x7d"] ++ "badF" ::
          ["\x7b\"event\":\"started-typing\",\"guid\":\"c9\"\x7d"]) =
      ((processEvents c6Parse ⟨[]⟩ ["\x7b\"event\":\"ping\"\x7d"]).1,
        (processEvents c6Parse ⟨[]⟩ ["\x7b\"event\":\"ping\"\x7d"]).2 ++
          [SocketEffect.logDebug ("Received data from BlueBubblesHelper: " ++ "badF"),
            SocketEffect.log ("Failed to decode BlueBubblesHelper data! " ++ "badF")])) ∧
    (∀ (raw : String) (tm' : TransactionManager),
      SocketEffect.destroyConnection ∉ (handleData c6Parse tm' raw).2) :=
  C6_amended_malformed_stops_burst c6Parse ⟨[]⟩ ["\x7b\"event\":\"ping\"\x7d"]
    ["\x7b\"event\":\"started-typing\",\"guid\":\"c9\"\x7d"] "badF"
    (by decide) (by decide) (by decide)

lemma settle_removes (T : String) :
    ∀ l : List Transaction,
      (l.map Transaction.transactionId).Nodup →
      T ∈ l.map Transaction.transactionId →
      ∃ i, List.findIdx? (fun t => t.transactionId == T) l = some i ∧
        T ∉ (l.eraseIdx i).map Transaction.transactionId := by
  intro l
  induction l with
  | nil => intro _ h; simp at h
  | cons t rest ih =>
    intro hnd hmem
    rw [List.map_cons, List.nodup_cons] at hnd
    by_cases hT : t.transactionId = T
    · refine ⟨0, ?_, ?_⟩
      · simp [List.findIdx?_cons, hT]
      · simpa [List.eraseIdx_cons_zero, hT] using hnd.1
    · have hmem' : T ∈ rest.map Transaction.transactionId := by
        rw [List.map_cons, List.mem_cons] at hmem
        rcases hmem with h | h
        · exact absurd h.symm hT
        · exact h
      obtain ⟨i, hfind, herase⟩ := ih hnd.2 hmem'
      refine ⟨i + 1, ?_, ?_⟩
      · simp [List.findIdx?_cons, hT, List.findIdx?_succ, hfind]
      · rw [List.eraseIdx_cons_succ, List.map_cons, List.mem_cons]
        push_neg
        exact ⟨fun h => hT h.symm, herase⟩

/-- C7: a response frame carrying a registered transaction id settles the
transaction exactly once — with `settleReject` on a non-empty error payload,
`settleResolve` otherwise — and removes it from the correlator, so a second
inbound frame carrying the same transaction id is a no-op: it changes no
state and settles no promise. -/
theorem C7_settle_once (tm : TransactionManager) (frame frame2 : HelperFrame) (T : String)
    (hT : frame.transactionId = some T) (hT2 : frame2.transactionId = some T) (hTne : T ≠ "")
    (hnodup : (tm.promises.map Transaction.transactionId).Nodup)
    (hmem : T ∈ tm.promises.map Transaction.transactionId) :
    T ∉ ((dispatchFrame tm frame).1.promises.map Transaction.transactionId) ∧
    ((dispatchFrame tm frame).2 =
      if (frame.error.getD "") ≠ "" then [SocketEffect.settleReject T (frame.error.getD "")]
      else [SocketEffect.settleResolve T frame.identifier]) ∧
    dispatchFrame (dispatchFrame tm frame).1 frame2 = ((dispatchFrame tm frame).1, []) := by
  obtain ⟨i, hfind, herase⟩ := settle_removes T tm.promises hnodup hmem
  have htr : jsTruthy frame.transactionId = true := by simp [jsTruthy, hT, hTne]
  have hgetD : frame.transactionId.getD "" = T := by simp [hT]
  have hdisp : dispatchFrame tm frame =
      (TransactionManager.settleAt tm i,
        if (frame.error.getD "") ≠ "" then [SocketEffect.settleReject T (frame.error.getD "")]
        else [SocketEffect.settleResolve T frame.identifier]) := by
    unfold dispatchFrame
    rw [if_pos htr, hgetD, hfind]
    dsimp only
    split_ifs <;> rfl
  have hout : (dispatchFrame tm frame).1.promises = tm.promises.eraseIdx i := by
    rw [hdisp]
    rfl
  have hnone : List.findIdx? (fun t => t.transactionId == T)
      (TransactionManager.settleAt tm i).promises = none := by
    rw [List.findIdx?_eq_none_iff]
    intro x hx
    have hxmem : x.transactionId ∈
        ((tm.promises.eraseIdx i).map Transaction.transactionId) :=
      List.mem_map_of_mem Transaction.transactionId hx
    have hne : x.transactionId ≠ T := fun he => herase (he ▸ hxmem)
    simpa using hne
  refine ⟨?_, by rw [hdisp], ?_⟩
  · rw [hout]
    exact herase
  · have htr2 : jsTruthy frame2.transactionId = true := by simp [jsTruthy, hT2, hTne]
    have hgetD2 : frame2.transactionId.getD "" = T := by simp [hT2]
    rw [hdisp]
    show dispatchFrame (TransactionManager.settleAt tm i) frame2 =
      (TransactionManager.settleAt tm i, [])
    unfold dispatchFrame
    rw [if_pos htr2, hgetD2, hnone]

/-- C7 witness: a correlator holding transaction `"T1"`; the tagged response
settles and removes it, and dispatching the same frame again is a no-op. -/
theorem C7_witness :
    "T1" ∉ ((dispatchFrame c7Manager c7Frame).1.promises.map Transaction.transactionId) ∧
    ((dispatchFrame c7Manager c7Frame).2 =
      if (c7Frame.error.getD "") ≠ "" then
        [SocketEffect.settleReject "T1" (c7Frame.error.getD "")]
      else [SocketEffect.settleResolve "T1" c7Frame.identifier]) ∧
    dispatchFrame (dispatchFrame c7Manager c7Frame).1 c7Frame =
      ((dispatchFrame c7Manager c7Frame).1, []) :=
  C7_settle_once c7Manager c7Frame c7Frame "T1" rfl rfl (by decide) (by decide) (by decide)

lemma foldl_gating (key : Message → String) :
    ∀ (entries : List Message) (cache : EventCache) (out : List Message),
      entries.foldl (fun (acc : EventCache × List Message) entry =>
          if acc.1.find (key entry) then acc
          else (acc.1.add (key entry), acc.2 ++ [entry])) (cache, out) =
        ((getEntriesSpec key cache entries).1, out ++ (getEntriesSpec key cache entries).2) := by
  intro entries
  induction entries with
  | nil => intro cache out; simp [getEntriesSpec]
  | cons e rest ih =>
    intro cache out
    rw [List.foldl_cons]
    by_cases hf : cache.find (key e) = true
    · rw [if_pos hf, ih cache out]
      simp [getEntriesSpec, hf]
    · rw [if_neg hf, ih (cache.add (key e)) (out ++ [e])]
      simp [getEntriesSpec, hf]

/-- C9: on a poll cycle `IncomingMessageListener.getEntries(after, before)`
issues a store query over the window `[after − 15000 ms, before]` with the
`is_from_me = 0` filter, and gates the returned rows through the dedup cache
exactly as the spec words it: a row is emitted as `new-entry` precisely when
its cache key is not already cached, the key being added before emission. -/
theorem C9_window_and_dedup (getMessages : MessageQuery → List Message)
    (key : Message → String) (cache : EventCache) (after before : Int) :
    IncomingMessageListener.getEntries getMessages key cache after before =
      ({ after := after - 15000, before := before, fromMe := 0 },
        getEntriesSpec key cache
          (getMessages { after := after - 15000, before := before, fromMe := 0 })) := by
  unfold IncomingMessageListener.getEntries
  dsimp only
  rw [foldl_gating key (getMessages { after := after - 15000, before := before, fromMe := 0 })
    cache []]
  simp

end BB
